import Mathlib

/-!
Shallow embedding of the ShapeFlow latent embedding and retrieval layer
(`deepdeform/layers/embedding_layer.py`): the `LatentEmbedder` class, its
`embed` optimization pipeline (two invocations of the inner `optimize_latent`
routine), its `retrieve` reranker, the spatial index built over the reference
latent codes, and the point-set (Chamfer) scoring used for reranking.

Numeric tensors are modelled over `ℚ`.  The forward/backward pass of one
optimizer iteration (lines 133-174 of the source) is abstracted as an update
function that `optim.step()` applies to the parameters registered with the
optimizer; everything the claims speak about — control flow, error behaviour,
step counts, sampling pools, parameter frames, ordering of returned
candidates — is embedded concretely.
-/

namespace ShapeFlow

/-- A 3-D point (one row of a `[*, 3]` tensor). -/
abbrev Pt : Type := ℚ × ℚ × ℚ

/-- Squared Euclidean distance between two points. -/
def sqDistPt (a b : Pt) : ℚ :=
  (a.1 - b.1) ^ 2 + (a.2.1 - b.2.1) ^ 2 + (a.2.2 - b.2.2) ^ 2

/-- Modelled from the spec: `ChamferDistKDTree` lives in
`deepdeform/layers/chamfer_layer.py`, which is not among the provided source
files; spec section 4.1 fixes its contract.  Squared distance from `p` to its
nearest neighbour in `B` (0 for an empty `B`). -/
def minSqDist (p : Pt) (B : List Pt) : ℚ :=
  match B with
  | [] => 0
  | b :: bs => List.foldl (fun m x => min m (sqDistPt p x)) (sqDistPt p b) bs

/-- Modelled from the spec: directed accuracy term of the point-set distance,
one squared nearest-neighbour distance per point of `A` (spec section 4.1). -/
def accuracy (A B : List Pt) : List ℚ := A.map (fun p => minSqDist p B)

/-- Modelled from the spec: directed completeness term, one squared
nearest-neighbour distance per point of `B` (spec section 4.1). -/
def completeness (A B : List Pt) : List ℚ := B.map (fun p => minSqDist p A)

/-- Mean of a list of rationals (0 for the empty list). -/
def meanQ (l : List ℚ) : ℚ := l.sum / l.length

/-- Modelled from the spec: the symmetric chamfer value under the `mean`
reduction — the average of the two directional means (spec section 4.1). -/
def chamMean (A B : List Pt) : ℚ :=
  (meanQ (accuracy A B) + meanQ (completeness A B)) / 2

/-- Score of one deformed candidate against the target points, as computed in
`LatentEmbedder.retrieve` (source lines 244-250): the mean of the completeness
term for `"one_way"` matching, the symmetric chamfer value otherwise. -/
def candScore (matching : String) (deformedVerts tarPts : List Pt) : ℚ :=
  if matching = "one_way" then meanQ (completeness deformedVerts tarPts)
  else chamMean deformedVerts tarPts

/-- Linear-congruential state step standing in for torch's global generator;
only determinism in the state matters to the claims proved below. -/
def lcg (g : ℕ) : ℕ := (6364136223846793005 * g + 1442695040888963407) % (2 ^ 64)

/-- `torch.manual_seed(seed)` (source line 78): the ambient generator state is
replaced by a state that depends on the seed alone. -/
def manualSeed (seed : ℕ) : ℕ := seed % (2 ^ 64)

/-- One pseudo-random rational together with the successor state. -/
def randUnit (g : ℕ) : ℚ × ℕ :=
  ((((lcg g % 2001 : ℕ) : ℚ) / 1000) - 1, lcg g)

/-- `torch.randn(bs_tar, self.lat_dims) * 1e-4` (source line 91): a vector of
`n` pseudo-random draws scaled by `1 / 10000`. -/
def randnVec (n : ℕ) (g : ℕ) : List ℚ × ℕ :=
  match n with
  | 0 => ([], g)
  | m + 1 =>
    let r := randUnit g
    let rest := randnVec m r.2
    (r.1 * (1 / 10000) :: rest.1, rest.2)

/-- `SubsetRandomSampler` over an index pool (source lines 106 and 199): a
generator-determined permutation of the pool.  It is modelled as a rotation;
only the facts that the result is a permutation of the pool and that it is a
deterministic function of the generator state are relied on. -/
def shuffleRng {α : Type} (g : ℕ) (l : List α) : List α × ℕ :=
  (l.rotate (g % 2 ^ 32), lcg g)

/-- Comparison used to rank `(squared distance, index)` pairs: by distance,
ties broken by index. -/
def distLe (a b : ℚ × ℕ) : Prop := a.1 < b.1 ∨ (a.1 = b.1 ∧ a.2 ≤ b.2)

instance : DecidableRel distLe := fun a b => by
  unfold distLe; exact inferInstance

instance : IsTotal (ℚ × ℕ) distLe where
  total a b := by
    rcases lt_trichotomy a.1 b.1 with h | h | h
    · exact Or.inl (Or.inl h)
    · rcases Nat.le_total a.2 b.2 with h2 | h2
      · exact Or.inl (Or.inr ⟨h, h2⟩)
      · exact Or.inr (Or.inr ⟨h.symm, h2⟩)
    · exact Or.inr (Or.inl h)

instance : IsTrans (ℚ × ℕ) distLe where
  trans a b c hab hbc := by
    rcases hab with h1 | ⟨h1, h1b⟩
    · rcases hbc with h2 | ⟨h2, _⟩
      · exact Or.inl (h1.trans h2)
      · exact Or.inl (h2 ▸ h1)
    · rcases hbc with h2 | ⟨h2, h2b⟩
      · exact Or.inl (h1 ▸ h2)
      · exact Or.inr ⟨h1.trans h2, h1b.trans h2b⟩

/-- Squared Euclidean distance between two latent vectors. -/
def sqDistL (a b : List ℚ) : ℚ := ((a.zip b).map (fun p => (p.1 - p.2) ^ 2)).sum

/-- The `scipy.spatial.cKDTree` query over the reference latent codes (the
tree is built at source line 23 and queried at lines 191 and 218): the `k`
nearest reference codes, sorted ascending by distance.  Per scipy's documented
behaviour, when `k` exceeds the number `N` of indexed codes the missing
neighbours are reported with infinite distance and the out-of-range index `N`;
no exception is raised.  Distances are kept squared (a monotone image of the
Euclidean distances scipy reports, which preserves the ordering facts used
below). -/
def treeQuery (codes : List (List ℚ)) (q : List ℚ) (k : ℕ) :
    List (WithTop ℚ) × List ℕ :=
  let pairs := codes.enum.map (fun p => (sqDistL q p.2, p.1))
  let sorted := List.insertionSort distLe pairs
  let top := sorted.take k
  (top.map (fun p => ((p.1 : ℚ) : WithTop ℚ)) ++
     List.replicate (k - codes.length) (⊤ : WithTop ℚ),
   top.map (fun p => p.2) ++ List.replicate (k - codes.length) codes.length)

/-- The indices returned by a query with `k = N` are a permutation of
`0, …, N-1`: every reference entry is reported exactly once. -/
lemma treeQuery_indices_perm (codes : List (List ℚ)) (q : List ℚ) :
    ((treeQuery codes q codes.length).2).Perm (List.range codes.length) := by
  unfold treeQuery
  simp only [Nat.sub_self, List.replicate_zero, List.append_nil]
  have hlen : (List.insertionSort distLe
      (codes.enum.map (fun p => (sqDistL q p.2, p.1)))).length = codes.length := by
    rw [List.length_insertionSort, List.length_map, List.enum_length]
  rw [List.take_of_length_le (le_of_eq hlen)]
  have hperm := List.perm_insertionSort distLe
      (codes.enum.map (fun p => (sqDistL q p.2, p.1)))
  have := hperm.map (fun p : ℚ × ℕ => p.2)
  rw [List.map_map] at this
  have hfst : (codes.enum.map
      ((fun p : ℚ × ℕ => p.2) ∘ fun p : ℕ × List ℚ => (sqDistL q p.2, p.1)))
      = List.range codes.length := by
    have : ((fun p : ℚ × ℕ => p.2) ∘ fun p : ℕ × List ℚ => (sqDistL q p.2, p.1))
        = Prod.fst := by
      funext p; rfl
    rw [this, List.enum_map_fst]
  rw [hfst] at this
  exact this

lemma pairwise_le_replicate_top (n : ℕ) :
    List.Pairwise (fun a b : WithTop ℚ => a ≤ b) (List.replicate n (⊤ : WithTop ℚ)) := by
  induction n with
  | zero => simp
  | succ m ih =>
    rw [List.replicate_succ, List.pairwise_cons]
    exact ⟨fun b hb => le_of_eq (List.eq_of_mem_replicate hb).symm, ih⟩

/-- The distance list returned by a query is sorted ascending, the infinite
padding entries included. -/
lemma treeQuery_dists_sorted (codes : List (List ℚ)) (q : List ℚ) (k : ℕ) :
    List.Sorted (fun a b : WithTop ℚ => a ≤ b) (treeQuery codes q k).1 := by
  unfold treeQuery
  simp only [List.Sorted]
  rw [List.pairwise_append]
  refine ⟨?_, pairwise_le_replicate_top _, ?_⟩
  · have hsorted := List.sorted_insertionSort distLe
        (codes.enum.map (fun p => (sqDistL q p.2, p.1)))
    have htake : List.Pairwise distLe
        ((List.insertionSort distLe
          (codes.enum.map (fun p => (sqDistL q p.2, p.1)))).take k) :=
      hsorted.sublist (List.take_sublist _ _)
    rw [List.pairwise_map]
    exact htake.imp (fun hab => by
      rcases hab with h | ⟨h, _⟩
      · exact WithTop.coe_le_coe.mpr (le_of_lt h)
      · exact WithTop.coe_le_coe.mpr (le_of_eq h))
  · intro a _ b hb
    rw [List.eq_of_mem_replicate hb]
    exact le_top

/-- For `k` past the library size the query does not fail: the index list is
the full sorted index list padded with the out-of-range sentinel `N`. -/
lemma treeQuery_indices_pad (codes : List (List ℚ)) (q : List ℚ) (k : ℕ)
    (hk : codes.length ≤ k) :
    (treeQuery codes q k).2
      = (treeQuery codes q codes.length).2
        ++ List.replicate (k - codes.length) codes.length := by
  unfold treeQuery
  have hlen : (List.insertionSort distLe
      (codes.enum.map (fun p => (sqDistL q p.2, p.1)))).length = codes.length := by
    rw [List.length_insertionSort, List.length_map, List.enum_length]
  simp only [Nat.sub_self, List.replicate_zero, List.append_nil]
  rw [List.take_of_length_le (le_of_eq hlen),
      List.take_of_length_le (hlen ▸ hk)]

/-- Every index returned by a query is at most the library size `N` (the
in-range nearest-neighbour indices are below `N`, padding entries equal `N`). -/
lemma treeQuery_indices_le (codes : List (List ℚ)) (q : List ℚ) (k : ℕ) :
    ∀ i ∈ (treeQuery codes q k).2, i ≤ codes.length := by
  intro i hi
  unfold treeQuery at hi
  simp only [List.mem_append] at hi
  rcases hi with hi | hi
  · rw [List.mem_map] at hi
    obtain ⟨p, hp, rfl⟩ := hi
    have hp2 : p ∈ List.insertionSort distLe
        (codes.enum.map (fun pr => (sqDistL q pr.2, pr.1))) :=
      (List.take_sublist _ _).subset hp
    have hp3 := (List.perm_insertionSort distLe _).subset hp2
    rw [List.mem_map] at hp3
    obtain ⟨pr, hpr, hpr2⟩ := hp3
    have hlt : pr.1 < codes.length :=
      (List.getElem?_eq_some.mp (List.mem_enum_iff_getElem?.mp hpr)).1
    have hsnd : pr.1 = p.2 := congrArg Prod.snd hpr2
    omega
  · rw [List.eq_of_mem_replicate hi]

deriving instance DecidableEq for Except

/-- Errors the modelled calls can raise.  `unsupportedMatching`,
`unsupportedLoss` and `unsupportedOptimizer` stand for the `raise ValueError`
statements at source lines 82, 84 and 99 (the spec groups them under the
taxonomy name `UnsupportedConfigError`); `notImplementedError` for the
`raise NotImplementedError` at lines 77 and 217; `nameError` for a Python
`NameError` on an unbound free variable; `indexOutOfRange` for the
out-of-bounds `IndexError` raised by indexing a tensor or dataset past its
length. -/
inductive EmbedErr where
  | notImplementedError
  | unsupportedMatching (s : String)
  | unsupportedLoss (s : String)
  | unsupportedOptimizer (s : String)
  | nameError (s : String)
  | indexOutOfRange
  deriving DecidableEq

/-- The spec's `UnsupportedConfigError` taxonomy: the three config-validation
`ValueError`s. -/
def EmbedErr.isUnsupportedConfig : EmbedErr → Bool
  | EmbedErr.unsupportedMatching _ => true
  | EmbedErr.unsupportedLoss _ => true
  | EmbedErr.unsupportedOptimizer _ => true
  | _ => false

/-- Whether an `embed` result is one of the `UnsupportedConfigError` failures. -/
def resultUnsupported (r : Except EmbedErr (List ℚ)) : Bool :=
  match r with
  | Except.error e => e.isUnsupportedConfig
  | Except.ok _ => false

/-- The three gradient-carrying parameter groups visible to an `embed` call:
the candidate latent being optimized (`embedded_latents`), the reference
latent codes (`self.lat_params`, flattened) and the Deformation Oracle's own
network parameters (flattened). -/
inductive PKey where
  | embeddedLatents
  | latParams
  | deformerParams
  deriving DecidableEq

/-- The parameter list the optimizer is constructed with at source line 100:
`OPTIMIZERS[optimizer]([embedded_latents], lr=lr)` registers the candidate
latent and nothing else. -/
def registeredParams : List PKey := [PKey.embeddedLatents]

/-- `optim.step()`: applies the computed update to exactly the parameters
registered with the optimizer, leaving every other tensor's values intact
(gradients may accumulate elsewhere, but values change only here). -/
def optimStep (f : List ℚ → List ℚ) (store : PKey → List ℚ) : PKey → List ℚ :=
  fun k => if k ∈ registeredParams then f (store k) else store k

/-- Outcome of a run of the inner `optimize_latent` loop: the parameter store
after the run, the exception (if one escaped) and the number of
`optim.step()` calls executed. -/
structure LoopOut where
  store : PKey → List ℚ
  err : Option EmbedErr
  steps : ℕ

/-- The deformation oracle contract (spec section 4.3): source points, source
latent, target latent to deformed points.  (The zero context latent stacked at
source lines 141-142 and 229-230 is part of the oracle's calling convention
and is absorbed here.) -/
def Oracle : Type := List Pt → List ℚ → List ℚ → List Pt

/-- The `for batch_idx, (fnames, idxs, source_points) in enumerate(point_loader)`
loop of `optimize_latent` (source lines 127-185).  Each iteration fetches one
mini-batch of dataset indices (an index past the dataset length raises
`IndexError` inside the loader), runs the forward/backward pass and
`optim.step()` — abstracted as `optimStep (f b)` — and only then checks
`if batch_idx >= niter: break`, so the step at batch index `niter` still
executes. -/
def optimizeLatentGo (nData : ℕ) (f : List ℕ → List ℚ → List ℚ) (niter : ℕ) :
    List (List ℕ) → ℕ → (PKey → List ℚ) → ℕ → LoopOut
  | [], _, store, c => { store := store, err := none, steps := c }
  | b :: bs, i, store, c =>
    if b.any (fun j => nData ≤ j) then
      { store := store, err := some EmbedErr.indexOutOfRange, steps := c }
    else
      if niter ≤ i then
        { store := optimStep (f b) store, err := none, steps := c + 1 }
      else optimizeLatentGo nData f niter bs (i + 1) (optimStep (f b) store) (c + 1)

/-- The inner routine `optimize_latent(point_loader, niter)` (source lines
114-185).  Its first statement, `deformer.train()` (line 116), dereferences
the free name `deformer`; the binding that Python name resolution finds for it
is the `binding` argument, and when no such binding exists the call raises
`NameError` before any loop iteration.  `upd` is the per-iteration update the
optimizer derives from the oracle's forward/backward pass. -/
def optimizeLatent (binding : Option Oracle)
    (upd : Oracle → List ℕ → List ℚ → List ℚ) (nData niter : ℕ)
    (batches : List (List ℕ)) (store : PKey → List ℚ) : LoopOut :=
  match binding with
  | none => { store := store, err := some (EmbedErr.nameError "deformer"), steps := 0 }
  | some d => optimizeLatentGo nData (upd d) niter batches 0 store 0

lemma optimStep_frame (f : List ℚ → List ℚ) (store : PKey → List ℚ) (k : PKey)
    (hk : ¬ k ∈ registeredParams) : optimStep f store k = store k := by
  unfold optimStep
  rw [if_neg hk]

lemma optimizeLatentGo_frame (nData : ℕ) (f : List ℕ → List ℚ → List ℚ)
    (niter : ℕ) (k : PKey) (hk : ¬ k ∈ registeredParams) :
    ∀ (batches : List (List ℕ)) (i : ℕ) (store : PKey → List ℚ) (c : ℕ),
      (optimizeLatentGo nData f niter batches i store c).store k = store k := by
  intro batches
  induction batches with
  | nil => intro i store c; rfl
  | cons b bs ih =>
    intro i store c
    unfold optimizeLatentGo
    by_cases hb : b.any (fun j => nData ≤ j)
    · rw [if_pos hb]
    · rw [if_neg hb]
      by_cases hi : niter ≤ i
      · simp only [if_pos hi]
        exact optimStep_frame _ _ _ hk
      · simp only [if_neg hi]
        rw [ih (i + 1) (optimStep (f b) store) (c + 1)]
        exact optimStep_frame _ _ _ hk

lemma optimizeLatentGo_steps (nData : ℕ) (f : List ℕ → List ℚ → List ℚ)
    (niter : ℕ) :
    ∀ (batches : List (List ℕ)) (i : ℕ) (store : PKey → List ℚ) (c : ℕ),
      i ≤ niter → (∀ b ∈ batches, ∀ j ∈ b, j < nData) →
      (optimizeLatentGo nData f niter batches i store c).steps
        = c + min batches.length (niter + 1 - i) := by
  intro batches
  induction batches with
  | nil => intro i store c _ _; simp [optimizeLatentGo]
  | cons b bs ih =>
    intro i store c hi hmem
    unfold optimizeLatentGo
    have hb : b.any (fun j => nData ≤ j) = false := by
      rw [List.any_eq_false]
      intro j hj
      simpa using hmem b (List.mem_cons_self b bs) j hj
    rw [if_neg (by simp [hb])]
    by_cases hni : niter ≤ i
    · have heq : i = niter := le_antisymm hi hni
      simp only [if_pos hni]
      subst heq
      simp only [List.length_cons]
      omega
    · simp only [if_neg hni]
      rw [ih (i + 1) (optimStep (f b) store) (c + 1) (by omega)
          (fun b2 hb2 => hmem b2 (List.mem_cons_of_mem b hb2))]
      simp only [List.length_cons]
      omega

lemma optimizeLatentGo_noErr (nData : ℕ) (f : List ℕ → List ℚ → List ℚ)
    (niter : ℕ) :
    ∀ (batches : List (List ℕ)) (i : ℕ) (store : PKey → List ℚ) (c : ℕ),
      (∀ b ∈ batches, ∀ j ∈ b, j < nData) →
      (optimizeLatentGo nData f niter batches i store c).err = none := by
  intro batches
  induction batches with
  | nil => intro i store c _; rfl
  | cons b bs ih =>
    intro i store c hmem
    unfold optimizeLatentGo
    have hb : b.any (fun j => nData ≤ j) = false := by
      rw [List.any_eq_false]
      intro j hj
      simpa using hmem b (List.mem_cons_self b bs) j hj
    rw [if_neg (by simp [hb])]
    by_cases hni : niter ≤ i
    · simp only [if_pos hni]
    · simp only [if_neg hni]
      exact ih (i + 1) _ (c + 1) (fun b2 hb2 => hmem b2 (List.mem_cons_of_mem b hb2))

/-- State of a `LatentEmbedder` together with the state of its injected
dependencies, as read/written by `embed` and `retrieve`:
`latParams` is `self.deformer.net.lat_params` (the reference latent codes,
also the keys of the spatial index built at source line 23), `pointDataset`
the cached point samples (`FixedPointsCachedDataset`), `meshDataset` the
reference meshes as (vertices, faces) pairs (`ShapeNetMesh`), `tarLatents`
the `self.deformer.net.tar_latents` attribute that `embed` overwrites at
source line 93, and `deformerParams` the oracle's remaining network
parameters (flattened). -/
structure Embedder where
  latParams : List (List ℚ)
  pointDataset : List (List Pt)
  meshDataset : List (List Pt × List ℕ)
  tarLatents : Option (List ℚ)
  deformerParams : List ℚ
  deriving DecidableEq

/-- `lat_dims` property (source lines 25-27): the width of the reference
latent matrix. -/
def Embedder.latDims (emb : Embedder) : ℕ := (emb.latParams.headD []).length

/-- The keyword arguments of `LatentEmbedder.embed` (source lines 56-58). -/
structure EmbedCfg where
  optimizer : String
  lr : ℚ
  seed : ℕ
  niter : ℕ
  bs : ℕ
  matching : String
  lossType : String
  topkFinetune : ℕ
  deriving DecidableEq

/-- The defaults of `LatentEmbedder.embed`'s signature. -/
def defaultCfg : EmbedCfg :=
  { optimizer := "adam", lr := 1 / 1000, seed := 0, niter := 20, bs := 32,
    matching := "one_way", lossType := "l1", topkFinetune := 10 }

/-- The matching policies accepted at source line 81. -/
def matchingKeys : List String := ["one_way", "two_way"]

/-- Modelled from the spec: `LOSSES` is defined in
`deepdeform/layers/shared_definition.py`, which is not among the provided
source files; spec section 6 enumerates the loss kinds `l1 | l2 | huber`, and
`src/shapenet_train.py` carries an identical table. -/
def lossKeys : List String := ["l1", "l2", "huber"]

/-- Modelled from the spec: `OPTIMIZERS` is defined in
`deepdeform/layers/shared_definition.py`, which is not among the provided
source files; spec section 6 enumerates the optimizer kinds, and
`src/shapenet_train.py` carries an identical table. -/
def optimizerKeys : List String := ["sgd", "adam", "adadelta", "adagrad", "rmsprop"]

/-- The batches one `DataLoader` pass yields with `drop_last=True` (source
lines 107-108 and 200-201): consecutive groups of `bs` sampled indices, the
trailing incomplete group dropped. -/
def chunksDropLast {α : Type} (bs : ℕ) (l : List α) : List (List α) :=
  (List.range (l.length / bs)).map (fun i => (l.drop (i * bs)).take bs)

lemma chunksDropLast_length {α : Type} (bs : ℕ) (l : List α) :
    (chunksDropLast bs l).length = l.length / bs := by
  unfold chunksDropLast
  rw [List.length_map, List.length_range]

lemma chunksDropLast_mem {α : Type} (bs : ℕ) (l : List α) (b : List α)
    (hb : b ∈ chunksDropLast bs l) : ∀ x ∈ b, x ∈ l := by
  unfold chunksDropLast at hb
  rw [List.mem_map] at hb
  obtain ⟨i, _, rfl⟩ := hb
  intro x hx
  exact ((List.take_sublist _ _).trans (List.drop_sublist _ _)).subset hx

/-- The candidate latent drawn at source line 91:
`torch.randn(bs_tar, self.lat_dims) * 1e-4` right after
`torch.manual_seed(seed)`. -/
def initialLatent (emb : Embedder) (cfg : EmbedCfg) : List ℚ :=
  (randnVec emb.latDims (manualSeed cfg.seed)).1

/-- Generator state after the initial latent draw. -/
def genAfterInit (emb : Embedder) (cfg : EmbedCfg) : ℕ :=
  (randnVec emb.latDims (manualSeed cfg.seed)).2

/-- The embedder state after source line 93,
`self.deformer.net.tar_latents = embedded_latents`. -/
def embAfterInit (emb : Embedder) (cfg : EmbedCfg) : Embedder :=
  { emb with tarLatents := some (initialLatent emb cfg) }

/-- The parameter store at the start of the coarse phase. -/
def initialStore (emb : Embedder) (cfg : EmbedCfg) : PKey → List ℚ :=
  fun k =>
    match k with
    | PKey.embeddedLatents => initialLatent emb cfg
    | PKey.latParams => emb.latParams.flatten
    | PKey.deformerParams => emb.deformerParams

/-- The coarse-phase epoch: `SubsetRandomSampler(np.arange(len(self.point_dataset)))`
chunked by the loader (source lines 106-108). -/
def coarsePerm (emb : Embedder) (cfg : EmbedCfg) : List ℕ :=
  (shuffleRng (genAfterInit emb cfg) (List.range emb.pointDataset.length)).1

/-- Generator state after the coarse-phase shuffle. -/
def genAfterCoarse (emb : Embedder) (cfg : EmbedCfg) : ℕ :=
  (shuffleRng (genAfterInit emb cfg) (List.range emb.pointDataset.length)).2

/-- The first `optimize_latent(point_loader, niter)` invocation (source line
188): the coarse phase. -/
def coarseLoop (emb : Embedder) (binding : Option Oracle)
    (upd : Oracle → List ℕ → List ℚ → List ℚ) (cfg : EmbedCfg) : LoopOut :=
  optimizeLatent binding upd emb.pointDataset.length cfg.niter
    (chunksDropLast cfg.bs (coarsePerm emb cfg)) (initialStore emb cfg)

/-- The spatial-index query on the coarse latent (source line 191):
`self.tree.query(embedded_latents, k=topk_finetune)`. -/
def fineIdxsOf (emb : Embedder) (binding : Option Oracle)
    (upd : Oracle → List ℕ → List ℚ → List ℚ) (cfg : EmbedCfg) : List ℕ :=
  (treeQuery emb.latParams ((coarseLoop emb binding upd cfg).store PKey.embeddedLatents)
    cfg.topkFinetune).2

/-- The refinement sampling pool (source line 199):
`SubsetRandomSampler(idxs_.tolist()*10)` — the top-k indices, each repeated
ten times. -/
def finePoolOf (emb : Embedder) (binding : Option Oracle)
    (upd : Oracle → List ℕ → List ℚ → List ℚ) (cfg : EmbedCfg) : List ℕ :=
  (List.replicate 10 (fineIdxsOf emb binding upd cfg)).flatten

/-- The second `optimize_latent(point_loader, 10)` invocation (source line
203): the refinement phase, with loader batch size `topk_finetune`. -/
def fineLoop (emb : Embedder) (binding : Option Oracle)
    (upd : Oracle → List ℕ → List ℚ → List ℚ) (cfg : EmbedCfg) : LoopOut :=
  optimizeLatent binding upd emb.pointDataset.length 10
    (chunksDropLast cfg.topkFinetune
      (shuffleRng (genAfterCoarse emb cfg) (finePoolOf emb binding upd cfg)).1)
    ((coarseLoop emb binding upd cfg).store)

/-- Observable outcome of one `embed` call: the returned value or the
exception, the embedder/deformer state afterwards, the number of
`optim.step()` calls in each phase, the number of spatial-index queries
issued, the learning rates of the two phases, and the refinement query
indices and sampling pool. -/
structure EmbedOut where
  result : Except EmbedErr (List ℚ)
  emb : Embedder
  stepsCoarse : ℕ
  stepsFine : ℕ
  queries : ℕ
  coarseLr : ℚ
  fineLr : ℚ
  fineIdxs : List ℕ
  finePool : List ℕ
  deriving DecidableEq

/-- Outcome of an `embed` call aborted before the `tar_latents` write: no
step has run, no query was issued, the state is unchanged. -/
def abortOut (e : EmbedErr) (emb : Embedder) (lr : ℚ) : EmbedOut :=
  { result := Except.error e, emb := emb, stepsCoarse := 0, stepsFine := 0,
    queries := 0, coarseLr := lr, fineLr := 0, fineIdxs := [], finePool := [] }

/-- `LatentEmbedder.embed` (source lines 56-205), in source order:
the batch-width guard (line 76), `torch.manual_seed(seed)` (line 78) — which
replaces the ambient generator state `g0`, making everything after it depend
on the seed alone — the matching and loss validation (lines 81-84), the
initial latent draw and the `tar_latents` write (lines 91-93), the optimizer
validation and construction (lines 98-100), the coarse loader and phase
(lines 106-108, 188), the spatial-index query, the refinement learning-rate
assignment `param_group['lr'] = 1e-3`, pool, loader and phase (lines
191-203), and the readout (line 205).  `binding` is the module-scope value
Python name resolution finds for the free name `deformer` used inside
`optimize_latent`; `upd` is the abstracted per-iteration gradient update. -/
def embedModel (emb : Embedder) (binding : Option Oracle)
    (upd : Oracle → List ℕ → List ℚ → List ℚ) (g0 : ℕ)
    (inputPoints : List (List Pt)) (cfg : EmbedCfg) : EmbedOut :=
  if inputPoints.length ≠ 1 then abortOut EmbedErr.notImplementedError emb cfg.lr
  else if ¬ cfg.matching ∈ matchingKeys then
    abortOut (EmbedErr.unsupportedMatching cfg.matching) emb cfg.lr
  else if ¬ cfg.lossType ∈ lossKeys then
    abortOut (EmbedErr.unsupportedLoss cfg.lossType) emb cfg.lr
  else if ¬ cfg.optimizer ∈ optimizerKeys then
    abortOut (EmbedErr.unsupportedOptimizer cfg.optimizer) (embAfterInit emb cfg) cfg.lr
  else
    match (coarseLoop emb binding upd cfg).err with
    | some e =>
      { result := Except.error e, emb := embAfterInit emb cfg,
        stepsCoarse := (coarseLoop emb binding upd cfg).steps, stepsFine := 0,
        queries := 0, coarseLr := cfg.lr, fineLr := 0, fineIdxs := [],
        finePool := [] }
    | none =>
      { result :=
          match (fineLoop emb binding upd cfg).err with
          | some e => Except.error e
          | none => Except.ok ((fineLoop emb binding upd cfg).store PKey.embeddedLatents),
        emb := embAfterInit emb cfg,
        stepsCoarse := (coarseLoop emb binding upd cfg).steps,
        stepsFine := (fineLoop emb binding upd cfg).steps,
        queries := 1, coarseLr := cfg.lr, fineLr := 1 / 1000,
        fineIdxs := fineIdxsOf emb binding upd cfg,
        finePool := finePoolOf emb binding upd cfg }

/-- Observable outcome of one `retrieve` call: the returned triple
(deformed meshes, original meshes, distance list) or the exception, and the
number of spatial-index queries issued before returning/raising. -/
structure RetrieveOut where
  result : Except EmbedErr
    (List (List Pt × List ℕ) × List (List Pt × List ℕ) × List ℚ)
  queries : ℕ

/-- `LatentEmbedder.retrieve` (source lines 207-255), in source order: the
batch-width guard (line 216), the spatial-index query (line 218), the
`self.lat_params[idxs_]` gather (line 225) — which raises `IndexError` when
the query padded the index list with the out-of-range sentinel `N` — the mesh
fetches (line 233), the deformation under `torch.no_grad()` (lines 236-237,
again through the free name `deformer`, resolved to `binding`; the
pad/trim round trip of lines 234-238 is the identity on each vertex list),
the per-candidate chamfer scoring in query order (lines 243-250), and the
return (line 255).  No reordering of the candidates happens after scoring. -/
def retrieveModel (emb : Embedder) (binding : Option Oracle)
    (latCodes : List (List ℚ)) (tarPts : List Pt) (topk : ℕ)
    (matching : String) : RetrieveOut :=
  if latCodes.length ≠ 1 then
    { result := Except.error EmbedErr.notImplementedError, queries := 0 }
  else
    let q := latCodes.headD []
    let idxs := (treeQuery emb.latParams q topk).2
    if idxs.any (fun i => emb.latParams.length ≤ i) then
      { result := Except.error EmbedErr.indexOutOfRange, queries := 1 }
    else
      match binding with
      | none => { result := Except.error (EmbedErr.nameError "deformer"), queries := 1 }
      | some d =>
        let origMeshes := idxs.map (fun i => emb.meshDataset.getD i ([], []))
        let srcLats := idxs.map (fun i => emb.latParams.getD i [])
        let deformed := (origMeshes.zip srcLats).map
          (fun mz => (d mz.1.1 mz.2 q, mz.1.2))
        let ds := deformed.map (fun m => candScore matching m.1 tarPts)
        { result := Except.ok (deformed, origMeshes, ds), queries := 1 }

/-- Projection of a retrieve outcome onto its returned distance list. -/
def retrievedDists (r : RetrieveOut) : Option (List ℚ) :=
  match r.result with
  | Except.ok t => some t.2.2
  | Except.error _ => none

/-- The names `deepdeform/layers/embedding_layer.py` itself binds at module
scope (source lines 1-7): the three explicit imports and the class. -/
def embeddingLayerOwnGlobals : List String :=
  ["cKDTree", "ChamferDistKDTree", "SubsetRandomSampler", "LatentEmbedder"]

/-- Modelled from the spec: the names the star-import
`from .shared_definition import *` (source line 4) adds to module scope.
`shared_definition.py` is not among the provided source files; per the spec
the Deformation Oracle is an injected constructor dependency ("injected
dependencies (constructor arguments), not loaded from a format the core
defines") and ambient module state carries no oracle, so the module exports
the configuration tables and utilities the rest of the repository uses
(`src/shapenet_train.py` shows the same `LOSSES`/`OPTIMIZERS`/`SOLVERS`
tables) and binds no name `deformer` and no name `device`. -/
def sharedDefinitionExports : List String :=
  ["torch", "np", "time", "DataLoader", "utils", "OPTIMIZERS", "LOSSES", "SOLVERS"]

/-- Everything visible at module scope inside `embedding_layer.py`. -/
def embeddingLayerModuleGlobals : List String :=
  embeddingLayerOwnGlobals ++ sharedDefinitionExports

/-- The local names of `LatentEmbedder.embed` (parameters, source lines
56-58, and assignments, lines 86-111 and 188-203).  `self.deformer` is an
attribute of the local `self`, not a name. -/
def embedLocalNames : List String :=
  ["self", "input_points", "optimizer", "lr", "seed", "niter", "bs", "verbose",
   "matching", "loss_type", "topk_finetune", "criterion", "bs_tar", "npts_tar",
   "npts_src", "embedded_latents", "optim", "sampler", "point_loader",
   "chamfer_dist", "optimize_latent", "dist", "idxs", "k", "idxs_",
   "param_group"]

/-- The local names bound inside `optimize_latent` (source lines 114-185). -/
def optimizeLatentLocalNames : List String :=
  ["point_loader", "niter", "toc", "bs_src", "embedded_latents_",
   "target_points_", "batch_idx", "fnames", "idxs", "source_points", "tic",
   "source_latents", "source_latents_", "target_latents_", "zeros",
   "source_target_latents", "source_points_", "deformed_pts", "accu", "comp",
   "cham", "loss", "deform_abs", "dist"]

/-- Python name resolution for a free name referenced inside
`optimize_latent`: local scope, then the enclosing `embed` scope, then module
scope; `none` means the reference raises `NameError` at run time. -/
def resolveOptimizeLatentName (n : String) : Option String :=
  if n ∈ optimizeLatentLocalNames then some "local"
  else if n ∈ embedLocalNames then some "enclosing"
  else if n ∈ embeddingLayerModuleGlobals then some "module"
  else none

/-- An oracle that returns its input points unchanged; stands in for a
deterministic pretrained deformer in concrete runs. -/
def oracleId : Oracle := fun pts _ _ => pts

/-- A gradient update that leaves the candidate latent unchanged; concrete
runs below only observe control flow, counts and pools, never latent values. -/
def updId : Oracle → List ℕ → List ℚ → List ℚ := fun _ _ c => c

/-- An empty parameter store for concrete loop runs. -/
def storeNil : PKey → List ℚ := fun _ => []

/-- A single target point set used by the concrete runs. -/
def tarPts1 : List Pt := [((0 : ℚ), (0 : ℚ), (0 : ℚ))]

/-- A reference library of two shapes with 1-dimensional latents 0 and 2.
The shape at latent 0 sits far from the origin, the shape at latent 2 at the
origin, so the latent-space ranking and the chamfer ranking disagree. -/
def embB : Embedder :=
  { latParams := [[0], [2]],
    pointDataset := [[((10 : ℚ), 0, 0)], [((0 : ℚ), 0, 0)]],
    meshDataset := [([((10 : ℚ), 0, 0)], [0]), ([((0 : ℚ), 0, 0)], [0])],
    tarLatents := none,
    deformerParams := [] }

/-- A six-shape reference library (1-dimensional latents) for step-count
runs. -/
def embC : Embedder :=
  { latParams := [[0], [1], [2], [3], [4], [5]],
    pointDataset := [[((0 : ℚ), 0, 0)], [((1 : ℚ), 0, 0)], [((2 : ℚ), 0, 0)],
      [((3 : ℚ), 0, 0)], [((4 : ℚ), 0, 0)], [((5 : ℚ), 0, 0)]],
    meshDataset := [([((0 : ℚ), 0, 0)], [0]), ([((1 : ℚ), 0, 0)], [0]),
      ([((2 : ℚ), 0, 0)], [0]), ([((3 : ℚ), 0, 0)], [0]),
      ([((4 : ℚ), 0, 0)], [0]), ([((5 : ℚ), 0, 0)], [0])],
    tarLatents := none,
    deformerParams := [] }

/-- A small config that drives a full successful `embed` run over `embB`:
default optimizer, learning rate, matching and loss, one-element batches, a
single-neighbour refinement query. -/
def cfgSmall : EmbedCfg :=
  { optimizer := "adam", lr := 1 / 1000, seed := 0, niter := 0, bs := 1,
    matching := "one_way", lossType := "l1", topkFinetune := 1 }

/-- `cfgSmall` with an optimizer name outside the supported table. -/
def cfgBadOptimizer : EmbedCfg :=
  { optimizer := "bogus", lr := 1 / 1000, seed := 0, niter := 0, bs := 1,
    matching := "one_way", lossType := "l1", topkFinetune := 1 }

/-- A config for `embC` with `niter = 1` against three available batches. -/
def cfg6a : EmbedCfg :=
  { optimizer := "adam", lr := 1 / 1000, seed := 0, niter := 1, bs := 2,
    matching := "one_way", lossType := "l1", topkFinetune := 2 }

/-- A config for `embC` with `niter = 20` against three available batches. -/
def cfg6b : EmbedCfg :=
  { optimizer := "adam", lr := 1 / 1000, seed := 0, niter := 20, bs := 2,
    matching := "one_way", lossType := "l1", topkFinetune := 2 }

lemma coarsePerm_length (emb : Embedder) (cfg : EmbedCfg) :
    (coarsePerm emb cfg).length = emb.pointDataset.length := by
  unfold coarsePerm shuffleRng
  rw [List.length_rotate, List.length_range]

lemma coarsePerm_mem (emb : Embedder) (cfg : EmbedCfg) :
    ∀ b ∈ chunksDropLast cfg.bs (coarsePerm emb cfg), ∀ j ∈ b,
      j < emb.pointDataset.length := by
  intro b hb j hj
  have hmem := chunksDropLast_mem _ _ _ hb j hj
  unfold coarsePerm shuffleRng at hmem
  exact List.mem_range.mp (List.mem_rotate.mp hmem)

lemma coarseLoop_err_none (emb : Embedder) (d : Oracle)
    (upd : Oracle → List ℕ → List ℚ → List ℚ) (cfg : EmbedCfg) :
    (coarseLoop emb (some d) upd cfg).err = none := by
  unfold coarseLoop optimizeLatent
  exact optimizeLatentGo_noErr _ _ _ _ 0 _ 0 (coarsePerm_mem emb cfg)

lemma coarseLoop_steps_eq (emb : Embedder) (d : Oracle)
    (upd : Oracle → List ℕ → List ℚ → List ℚ) (cfg : EmbedCfg) :
    (coarseLoop emb (some d) upd cfg).steps
      = min (emb.pointDataset.length / cfg.bs) (cfg.niter + 1) := by
  unfold coarseLoop optimizeLatent
  rw [optimizeLatentGo_steps _ _ _ _ 0 _ 0 (Nat.zero_le _) (coarsePerm_mem emb cfg)]
  rw [chunksDropLast_length, coarsePerm_length]
  omega

lemma optimizeLatent_frame (binding : Option Oracle)
    (upd : Oracle → List ℕ → List ℚ → List ℚ) (nData niter : ℕ)
    (batches : List (List ℕ)) (store : PKey → List ℚ) (k : PKey)
    (hk : ¬ k ∈ registeredParams) :
    (optimizeLatent binding upd nData niter batches store).store k = store k := by
  unfold optimizeLatent
  cases binding with
  | none => rfl
  | some d => exact optimizeLatentGo_frame _ _ _ _ hk _ 0 _ 0

lemma latParams_not_registered : ¬ PKey.latParams ∈ registeredParams := by
  decide

lemma deformerParams_not_registered : ¬ PKey.deformerParams ∈ registeredParams := by
  decide

/-- C1: the claim reads "the returned candidate list is sorted ascending by
the Point-Set matching distance between each deformed candidate and the
target points, so the returned distance list is non-decreasing in rank
order".  No distance list is returned at all: at a concrete width-1 call with
`k ≤ N`, the deformation step dereferences the unbound free name `deformer`
(source line 237) and `retrieve` raises `NameError` instead of returning a
candidate list — there is no returned list to be sorted (and lines 243-255
contain no sorting operation in any case). -/
theorem retrieve_returns_no_list_cex :
    retrievedDists (retrieveModel embB none [[0]] tarPts1 2 "one_way") = none ∧
    (retrieveModel embB none [[0]] tarPts1 2 "one_way").result
      = Except.error (EmbedErr.nameError "deformer") :=
  ⟨by with_unfolding_all rfl, by with_unfolding_all rfl⟩

/-- C1 (amended): `retrieve` never returns a candidate list.  A call with
batch width ≠ 1 raises `NotImplementedError` (line 217); a width-1 call whose
spatial-index query padded the index list with the out-of-range sentinel
(`k > N`) raises `IndexError` at the reference-latent gather (line 225);
every other call raises `NameError` at the deformation step (line 237), the
free name `deformer` being bound in no scope.  Hence no retrieve call yields
a distance list whose rank order could be checked. -/
theorem retrieve_never_returns (emb : Embedder) (latCodes : List (List ℚ))
    (tarPts : List Pt) (topk : ℕ) (matching : String) :
    retrievedDists (retrieveModel emb none latCodes tarPts topk matching)
      = none ∧
    ((retrieveModel emb none latCodes tarPts topk matching).result
        = Except.error EmbedErr.notImplementedError ∨
     (retrieveModel emb none latCodes tarPts topk matching).result
        = Except.error EmbedErr.indexOutOfRange ∨
     (retrieveModel emb none latCodes tarPts topk matching).result
        = Except.error (EmbedErr.nameError "deformer")) := by
  simp only [retrieveModel]
  by_cases h1 : latCodes.length ≠ 1
  · rw [if_pos h1]
    exact ⟨rfl, Or.inl rfl⟩
  · rw [if_neg h1]
    by_cases h2 : ((treeQuery emb.latParams (latCodes.headD []) topk).2).any
        (fun i => emb.latParams.length ≤ i)
    · rw [if_pos h2]
      exact ⟨rfl, Or.inr (Or.inl rfl)⟩
    · rw [if_neg h2]
      exact ⟨rfl, Or.inr (Or.inr rfl)⟩

/-- C2: the claim reads "the Deformation Oracle invoked inside the
optimization loop and the retrieval deformation step is the deformer instance
passed to the LatentEmbedder constructor".  The deformation calls
(`deformer.train()` at line 116, `deformer(...)` at lines 148 and 237) use
the free name `deformer`, not `self.deformer`; no scope on the resolution
path binds that name, so with the shared-definitions module as the spec
describes it, both `embed` and `retrieve` raise `NameError` at the first
dereference — before any optimizer step — instead of invoking the injected
instance. -/
theorem deformer_name_unresolved :
    resolveOptimizeLatentName "deformer" = none ∧
    (embedModel embB none updId 0 [tarPts1] cfgSmall).result
      = Except.error (EmbedErr.nameError "deformer") ∧
    (embedModel embB none updId 0 [tarPts1] cfgSmall).stepsCoarse = 0 ∧
    (retrieveModel embB none [[0]] tarPts1 2 "one_way").result
      = Except.error (EmbedErr.nameError "deformer") :=
  ⟨by decide, by with_unfolding_all rfl, by with_unfolding_all rfl,
   by with_unfolding_all rfl⟩

lemma embedModel_none_eq (emb : Embedder)
    (upd : Oracle → List ℕ → List ℚ → List ℚ) (g0 : ℕ)
    (inputPoints : List (List Pt)) (cfg : EmbedCfg)
    (h1 : inputPoints.length = 1) (h2 : cfg.matching ∈ matchingKeys)
    (h3 : cfg.lossType ∈ lossKeys) (h4 : cfg.optimizer ∈ optimizerKeys) :
    embedModel emb none upd g0 inputPoints cfg
      = { result := Except.error (EmbedErr.nameError "deformer"),
          emb := embAfterInit emb cfg, stepsCoarse := 0, stepsFine := 0,
          queries := 0, coarseLr := cfg.lr, fineLr := 0, fineIdxs := [],
          finePool := [] } := by
  unfold embedModel
  rw [if_neg (by simp [h1]), if_neg (by simp [h2]), if_neg (by simp [h3]),
      if_neg (by simp [h4])]
  rfl

/-- C3: the claim reads "the coarse phase performs exactly niter optimizer
steps; if niter exceeds the number of available mini-batches in one pass over
the reference set, the epoch is reshuffled and resampled so the full count of
steps is still executed".  The coarse phase of the program as it stands
performs zero optimizer steps: `optimize_latent`'s first statement
dereferences the unbound free name `deformer` (source line 116) and raises
`NameError` before the first mini-batch iteration.  At the concrete call
below `niter = 1`, so the claim demands one step; zero execute. -/
theorem coarse_zero_steps_cex :
    (embedModel embC none updId 0 [tarPts1] cfg6a).stepsCoarse = 0 ∧
    (0 : ℕ) ≠ 1 ∧
    (embedModel embC none updId 0 [tarPts1] cfg6a).result
      = Except.error (EmbedErr.nameError "deformer") :=
  ⟨by with_unfolding_all rfl, by decide, by with_unfolding_all rfl⟩

/-- C3 (amended): every `embed` call that passes the width guard and the
config validation performs zero coarse optimizer steps and aborts with
`NameError`: the `deformer.train()` dereference at `optimize_latent` entry
(line 116) precedes the first loop iteration, so no `optim.step()` runs and
no epoch is ever reshuffled or resampled. -/
theorem coarse_phase_zero_steps (emb : Embedder)
    (upd : Oracle → List ℕ → List ℚ → List ℚ) (g0 : ℕ)
    (inputPoints : List (List Pt)) (cfg : EmbedCfg)
    (h1 : inputPoints.length = 1) (h2 : cfg.matching ∈ matchingKeys)
    (h3 : cfg.lossType ∈ lossKeys) (h4 : cfg.optimizer ∈ optimizerKeys) :
    (embedModel emb none upd g0 inputPoints cfg).stepsCoarse = 0 ∧
    (embedModel emb none upd g0 inputPoints cfg).result
      = Except.error (EmbedErr.nameError "deformer") := by
  rw [embedModel_none_eq emb upd g0 inputPoints cfg h1 h2 h3 h4]
  exact ⟨rfl, rfl⟩

theorem coarse_phase_zero_steps_witness :
    (embedModel embC none updId 0 [tarPts1] cfg6b).stepsCoarse = 0 ∧
    (embedModel embC none updId 0 [tarPts1] cfg6b).result
      = Except.error (EmbedErr.nameError "deformer") :=
  coarse_phase_zero_steps embC updId 0 [tarPts1] cfg6b rfl (by decide)
    (by decide) (by decide)

/-- C4: the claim reads "with k greater than the number of indexed reference
latent codes N, the call fails with InvalidQueryError; with k == N it returns
all reference entries exactly once".  On a two-entry library with `k = 3` the
spatial-index query does not fail at all — it returns padded output with the
sentinel index `2 = N` and an infinite distance — and the `retrieve` call
then fails with an out-of-range index error at the `lat_params` gather, not
with `InvalidQueryError`. -/
theorem query_k_bound_cex :
    treeQuery [[(0 : ℚ)], [(1 : ℚ)]] [(0 : ℚ)] 3
      = ([(0 : WithTop ℚ), 1, ⊤], [0, 1, 2]) ∧
    (retrieveModel embB (some oracleId) [[0]] tarPts1 3 "one_way").result
      = Except.error EmbedErr.indexOutOfRange :=
  ⟨by with_unfolding_all rfl, by with_unfolding_all rfl⟩

/-- C4 (amended): a Spatial-Index query with `k = N` returns all reference
entries exactly once (first conjunct); a query with `k > N` raises nothing —
it returns the full `k = N` index list padded with the out-of-range sentinel
`N` (second conjunct) — and a `retrieve` call with `k > N` then fails with an
out-of-range index error at the reference-latent gather rather than with
`InvalidQueryError` (third conjunct). -/
theorem query_k_bound (codes : List (List ℚ)) (q : List ℚ) (k : ℕ)
    (emb : Embedder) (binding : Option Oracle) (latCodes : List (List ℚ))
    (tarPts : List Pt) (matching : String)
    (hk : codes.length < k) (hk2 : emb.latParams.length < k)
    (hlen : latCodes.length = 1) :
    ((treeQuery codes q codes.length).2).Perm (List.range codes.length) ∧
    (treeQuery codes q k).2
      = (treeQuery codes q codes.length).2
        ++ List.replicate (k - codes.length) codes.length ∧
    (retrieveModel emb binding latCodes tarPts k matching).result
      = Except.error EmbedErr.indexOutOfRange := by
  refine ⟨treeQuery_indices_perm codes q,
    treeQuery_indices_pad codes q k (le_of_lt hk), ?_⟩
  simp only [retrieveModel]
  rw [if_neg (by simp [hlen])]
  have hany : ((treeQuery emb.latParams (latCodes.headD []) k).2).any
      (fun i => emb.latParams.length ≤ i) = true := by
    rw [List.any_eq_true]
    refine ⟨emb.latParams.length, ?_, by simp⟩
    rw [treeQuery_indices_pad emb.latParams _ k (le_of_lt hk2)]
    refine List.mem_append_right _ ?_
    rw [List.mem_replicate]
    exact ⟨by omega, rfl⟩
  rw [if_pos hany]

theorem query_k_bound_witness :
    (retrieveModel embB (some oracleId) [[0]] tarPts1 3 "one_way").result
      = Except.error EmbedErr.indexOutOfRange :=
  (query_k_bound [[(0 : ℚ)], [(1 : ℚ)]] [(0 : ℚ)] 3 embB (some oracleId)
    [[0]] tarPts1 "one_way" (by decide) (by decide) rfl).2.2

/-- C5: the claim reads "the refinement phase runs with a learning rate
strictly lower than the learning rate used in the coarse phase, and draws its
mini-batches only from the topk_finetune reference indices returned by the
Spatial-Index query on the coarse latent".  The refinement phase does not run
at all: at a concrete call that passes validation, `embed` aborts in the
coarse phase with `NameError` (line 188 → line 116), issuing zero
spatial-index queries and performing zero refinement steps, so no
lower-learning-rate run over a top-k pool ever happens. -/
theorem finetune_never_runs_cex :
    (embedModel embB none updId 0 [tarPts1] cfgSmall).stepsFine = 0 ∧
    (embedModel embB none updId 0 [tarPts1] cfgSmall).queries = 0 ∧
    (embedModel embB none updId 0 [tarPts1] cfgSmall).result
      = Except.error (EmbedErr.nameError "deformer") :=
  ⟨by with_unfolding_all rfl, by with_unfolding_all rfl,
   by with_unfolding_all rfl⟩

/-- C5 (amended): the refinement phase is unreachable.  Every `embed` call
that passes the width guard and the config validation aborts inside the
coarse `optimize_latent` invocation with `NameError` on the unbound free name
`deformer`, before the spatial-index query on the coarse latent (line 191),
the `1e-3` learning-rate assignment (lines 196-197) and the restricted-pool
refinement loop (lines 199-203): zero refinement steps run, zero queries are
issued, and no top-k index list or sampling pool is ever formed. -/
theorem finetune_phase_unreachable (emb : Embedder)
    (upd : Oracle → List ℕ → List ℚ → List ℚ) (g0 : ℕ)
    (inputPoints : List (List Pt)) (cfg : EmbedCfg)
    (h1 : inputPoints.length = 1) (h2 : cfg.matching ∈ matchingKeys)
    (h3 : cfg.lossType ∈ lossKeys) (h4 : cfg.optimizer ∈ optimizerKeys) :
    (embedModel emb none upd g0 inputPoints cfg).stepsFine = 0 ∧
    (embedModel emb none upd g0 inputPoints cfg).queries = 0 ∧
    (embedModel emb none upd g0 inputPoints cfg).fineIdxs = [] ∧
    (embedModel emb none upd g0 inputPoints cfg).finePool = [] ∧
    (embedModel emb none upd g0 inputPoints cfg).result
      = Except.error (EmbedErr.nameError "deformer") := by
  rw [embedModel_none_eq emb upd g0 inputPoints cfg h1 h2 h3 h4]
  exact ⟨rfl, rfl, rfl, rfl, rfl⟩

theorem finetune_phase_unreachable_witness :
    (embedModel embB none updId 0 [tarPts1] cfg6a).stepsFine = 0 ∧
    (embedModel embB none updId 0 [tarPts1] cfg6a).queries = 0 ∧
    (embedModel embB none updId 0 [tarPts1] cfg6a).fineIdxs = [] ∧
    (embedModel embB none updId 0 [tarPts1] cfg6a).finePool = [] ∧
    (embedModel embB none updId 0 [tarPts1] cfg6a).result
      = Except.error (EmbedErr.nameError "deformer") :=
  finetune_phase_unreachable embB updId 0 [tarPts1] cfg6a rfl (by decide)
    (by decide) (by decide)

/-- C6: an `embed` call (with the supported batch width) whose optimizer,
loss, or matching-policy name lies outside the supported enumerated sets
aborts with one of the config-validation errors the spec groups under
`UnsupportedConfigError` (the `raise ValueError` statements at source lines
82, 84 and 99). -/
theorem unknown_config_error (emb : Embedder) (binding : Option Oracle)
    (upd : Oracle → List ℕ → List ℚ → List ℚ) (g0 : ℕ)
    (inputPoints : List (List Pt)) (cfg : EmbedCfg)
    (h1 : inputPoints.length = 1)
    (hbad : ¬ cfg.matching ∈ matchingKeys ∨ ¬ cfg.lossType ∈ lossKeys
      ∨ ¬ cfg.optimizer ∈ optimizerKeys) :
    resultUnsupported (embedModel emb binding upd g0 inputPoints cfg).result
      = true := by
  unfold embedModel
  rw [if_neg (by simp [h1])]
  by_cases h2 : cfg.matching ∈ matchingKeys
  · rw [if_neg (by simp [h2])]
    by_cases h3 : cfg.lossType ∈ lossKeys
    · rw [if_neg (by simp [h3])]
      by_cases h4 : cfg.optimizer ∈ optimizerKeys
      · exact absurd hbad (by simp [h2, h3, h4])
      · rw [if_pos h4]
        rfl
    · rw [if_pos h3]
      rfl
  · rw [if_pos h2]
    rfl

theorem unknown_config_error_witness :
    resultUnsupported
      (embedModel embB (some oracleId) updId 0 [tarPts1] cfgBadOptimizer).result
      = true :=
  unknown_config_error embB (some oracleId) updId 0 [tarPts1] cfgBadOptimizer
    rfl (Or.inr (Or.inr (by decide)))

/-- C7: an `embed` or `retrieve` call whose input batch width is not 1 fails
with `NotImplementedError` as its very first action: the returned outcome is
the bare abort — zero optimizer steps, zero index queries, state untouched. -/
theorem batch_width_guard (emb : Embedder) (binding : Option Oracle)
    (upd : Oracle → List ℕ → List ℚ → List ℚ) (g0 : ℕ)
    (inputPoints : List (List Pt)) (cfg : EmbedCfg) (latCodes : List (List ℚ))
    (tarPts : List Pt) (topk : ℕ) (matching : String)
    (h1 : inputPoints.length ≠ 1) (h2 : latCodes.length ≠ 1) :
    embedModel emb binding upd g0 inputPoints cfg
      = abortOut EmbedErr.notImplementedError emb cfg.lr ∧
    retrieveModel emb binding latCodes tarPts topk matching
      = { result := Except.error EmbedErr.notImplementedError, queries := 0 } := by
  constructor
  · unfold embedModel
    rw [if_pos h1]
  · unfold retrieveModel
    rw [if_pos h2]

theorem batch_width_guard_witness :
    embedModel embB (some oracleId) updId 0 [tarPts1, tarPts1] cfgSmall
      = abortOut EmbedErr.notImplementedError embB cfgSmall.lr ∧
    retrieveModel embB (some oracleId) [[0], [0]] tarPts1 2 "one_way"
      = { result := Except.error EmbedErr.notImplementedError, queries := 0 } :=
  batch_width_guard embB (some oracleId) updId 0 [tarPts1, tarPts1] cfgSmall
    [[0], [0]] tarPts1 2 "one_way" (by decide) (by decide)

/-- C8: one `optim.step()` inside `embed` updates only the candidate latent —
the only parameter registered with the optimizer at source line 100 — so the
reference latent codes and the oracle's parameters hold the same values after
each step, after a whole `optimize_latent` run, and after both phases of
`embed`. -/
theorem gradient_frame (binding : Option Oracle)
    (upd : Oracle → List ℕ → List ℚ → List ℚ) (nData niter : ℕ)
    (batches : List (List ℕ)) (store : PKey → List ℚ)
    (f : List ℚ → List ℚ) (emb : Embedder) (cfg : EmbedCfg) :
    optimStep f store PKey.latParams = store PKey.latParams ∧
    optimStep f store PKey.deformerParams = store PKey.deformerParams ∧
    (optimizeLatent binding upd nData niter batches store).store PKey.latParams
      = store PKey.latParams ∧
    (optimizeLatent binding upd nData niter batches store).store PKey.deformerParams
      = store PKey.deformerParams ∧
    (coarseLoop emb binding upd cfg).store PKey.latParams
      = emb.latParams.flatten ∧
    (coarseLoop emb binding upd cfg).store PKey.deformerParams
      = emb.deformerParams ∧
    (fineLoop emb binding upd cfg).store PKey.latParams
      = emb.latParams.flatten ∧
    (fineLoop emb binding upd cfg).store PKey.deformerParams
      = emb.deformerParams := by
  have hc1 : (coarseLoop emb binding upd cfg).store PKey.latParams
      = emb.latParams.flatten :=
    optimizeLatent_frame _ _ _ _ _ _ _ latParams_not_registered
  have hc2 : (coarseLoop emb binding upd cfg).store PKey.deformerParams
      = emb.deformerParams :=
    optimizeLatent_frame _ _ _ _ _ _ _ deformerParams_not_registered
  refine ⟨optimStep_frame _ _ _ latParams_not_registered,
    optimStep_frame _ _ _ deformerParams_not_registered,
    optimizeLatent_frame _ _ _ _ _ _ _ latParams_not_registered,
    optimizeLatent_frame _ _ _ _ _ _ _ deformerParams_not_registered,
    hc1, hc2, ?_, ?_⟩
  · unfold fineLoop
    rw [optimizeLatent_frame _ _ _ _ _ _ _ latParams_not_registered]
    exact hc1
  · unfold fineLoop
    rw [optimizeLatent_frame _ _ _ _ _ _ _ deformerParams_not_registered]
    exact hc2

/-- C9: the claim reads "the error aborts the whole call with no partial
effect: no optimization step has run and the embedder's and injected
deformer's observable state is unchanged on error".  For an unknown
optimizer name the `ValueError` is raised only at source line 99, after line
93 already overwrote `self.deformer.net.tar_latents` with the freshly drawn
candidate latent: the deformer's observable state differs after the failed
call. -/
theorem validation_side_effect_cex :
    (embedModel embB (some oracleId) updId 0 [tarPts1] cfgBadOptimizer).result
      = Except.error (EmbedErr.unsupportedOptimizer "bogus") ∧
    (embedModel embB (some oracleId) updId 0 [tarPts1] cfgBadOptimizer).stepsCoarse
      = 0 ∧
    embB.tarLatents = none ∧
    (embedModel embB (some oracleId) updId 0 [tarPts1] cfgBadOptimizer).emb.tarLatents
      = some (initialLatent embB cfgBadOptimizer) ∧
    (embedModel embB (some oracleId) updId 0 [tarPts1] cfgBadOptimizer).emb ≠ embB :=
  ⟨by with_unfolding_all rfl, by with_unfolding_all rfl, rfl,
   by with_unfolding_all rfl, by with_unfolding_all decide⟩

/-- C9 (amended): a validation failure aborts `embed` before any optimizer
step or index query.  An unknown matching or loss name aborts with the
embedder and deformer state fully unchanged; an unknown optimizer name aborts
only after `self.deformer.net.tar_latents` has been overwritten with the
freshly drawn initial latent (the sole state change — still zero steps and
zero queries). -/
theorem validation_effects (emb : Embedder) (binding : Option Oracle)
    (upd : Oracle → List ℕ → List ℚ → List ℚ) (g0 : ℕ)
    (inputPoints : List (List Pt)) (cfg : EmbedCfg)
    (h1 : inputPoints.length = 1) :
    (¬ cfg.matching ∈ matchingKeys →
      embedModel emb binding upd g0 inputPoints cfg
        = abortOut (EmbedErr.unsupportedMatching cfg.matching) emb cfg.lr) ∧
    (cfg.matching ∈ matchingKeys → ¬ cfg.lossType ∈ lossKeys →
      embedModel emb binding upd g0 inputPoints cfg
        = abortOut (EmbedErr.unsupportedLoss cfg.lossType) emb cfg.lr) ∧
    (cfg.matching ∈ matchingKeys → cfg.lossType ∈ lossKeys →
      ¬ cfg.optimizer ∈ optimizerKeys →
      embedModel emb binding upd g0 inputPoints cfg
        = abortOut (EmbedErr.unsupportedOptimizer cfg.optimizer)
            (embAfterInit emb cfg) cfg.lr) := by
  refine ⟨?_, ?_, ?_⟩
  · intro h2
    unfold embedModel
    rw [if_neg (by simp [h1]), if_pos h2]
  · intro h2 h3
    unfold embedModel
    rw [if_neg (by simp [h1]), if_neg (by simp [h2]), if_pos h3]
  · intro h2 h3 h4
    unfold embedModel
    rw [if_neg (by simp [h1]), if_neg (by simp [h2]), if_neg (by simp [h3]),
        if_pos h4]

theorem validation_effects_witness :
    embedModel embB (some oracleId) updId 0 [tarPts1] cfgBadOptimizer
      = abortOut (EmbedErr.unsupportedOptimizer "bogus")
          (embAfterInit embB cfgBadOptimizer) cfgBadOptimizer.lr :=
  (validation_effects embB (some oracleId) updId 0 [tarPts1] cfgBadOptimizer
    rfl).2.2 (by decide) (by decide) (by decide)

/-- C10: two `embed` calls with identical seed, config and input points (and
the same — hence deterministic — oracle binding and gradient update) return
identical outcomes whatever the ambient generator states `g1`, `g2` were
when each call started: `torch.manual_seed(seed)` replaces the ambient state
before any random draw, so the result depends on the seed alone. -/
theorem embed_deterministic (emb : Embedder) (binding : Option Oracle)
    (upd : Oracle → List ℕ → List ℚ → List ℚ) (g1 g2 : ℕ)
    (inputPoints : List (List Pt)) (cfg : EmbedCfg) :
    embedModel emb binding upd g1 inputPoints cfg
      = embedModel emb binding upd g2 inputPoints cfg := rfl

end ShapeFlow
